import Mathlib

/-!
Shallow embedding of the template-robustness analysis core
(src/template_robustness/algorithm.py).

Modelling conventions:
* Python frozensets of attribute names are represented by lists of their
  elements; the only operations the code performs on them are
  non-emptiness-of-intersection tests, which agree with set semantics.
* Python `Template.__eq__` compares names only (the operation list carries
  `compare=False`); every place the source compares templates we compare
  names explicitly.  Allocations (Python dicts keyed by templates, hashed
  by name) are modelled as total functions from template names.
* Python sets used purely for enumeration are modelled as lists iterated
  in the order the source generates their elements; where a claim is
  order-independent this is a faithful refinement of the unspecified
  Python set iteration order.
* The networkx graph and its reflexive transitive closure are modelled by
  the list of valid nodes in insertion order, a symmetric adjacency
  predicate, a fuel-bounded reachability computation, and the list of
  connected ordered pairs (earlier node first, as networkx edge iteration
  reports each undirected edge once from its first-inserted endpoint).
-/

/-- Enum IsolationLevel from algorithm.py. -/
inductive IsolationLevel where
  | READ_COMMITTED
  | SNAPSHOT_ISOLATION
  | SERIALIZABLE
deriving DecidableEq, Repr

/-- Numeric value of an isolation level (the Python enum values 1,2,3);
this also realises the order RC < SI < SSI used by the optimizer. -/
def IsolationLevel.value : IsolationLevel → Nat
  | .READ_COMMITTED => 1
  | .SNAPSHOT_ISOLATION => 2
  | .SERIALIZABLE => 3

/-- Enum Conn from algorithm.py: connected to o1, connected to p1, or not connected. -/
inductive Conn where
  | O
  | P
  | N
deriving DecidableEq, Repr

/-- Enum InOut from algorithm.py. -/
inductive InOut where
  | IN
  | OUT
deriving DecidableEq, Repr

/-- Dataclass Operation: variable, relation, readset, writeset.
The read and write sets (Python frozensets) are carried as lists of
their elements. -/
structure Operation where
  var : String
  relation : String
  readset : List String := []
  writeset : List String := []
deriving DecidableEq, Repr

/-- Operation.is_rw_conflicting: same relation and readset ∩ other.writeset nonempty. -/
def Operation.is_rw_conflicting (a b : Operation) : Bool :=
  (a.relation == b.relation) && a.readset.any (fun x => b.writeset.contains x)

/-- Operation.is_wr_conflicting: same relation and writeset ∩ other.readset nonempty. -/
def Operation.is_wr_conflicting (a b : Operation) : Bool :=
  (a.relation == b.relation) && a.writeset.any (fun x => b.readset.contains x)

/-- Operation.is_ww_conflicting: same relation and writeset ∩ other.writeset nonempty. -/
def Operation.is_ww_conflicting (a b : Operation) : Bool :=
  (a.relation == b.relation) && a.writeset.any (fun x => b.writeset.contains x)

/-- Operation.is_conflicting: rw or wr or ww. -/
def Operation.is_conflicting (a b : Operation) : Bool :=
  a.is_rw_conflicting b || a.is_wr_conflicting b || a.is_ww_conflicting b

/-- Dataclass Template: a name and an ordered list of operations.
Python equality compares only the name; we compare names explicitly
wherever the source compares templates. -/
structure Template where
  name : String
  operations : List Operation
deriving DecidableEq, Repr

/-- Python Template equality (name only, operations carry compare=False). -/
def tmplEq (a b : Template) : Bool :=
  a.name == b.name

/-- Dataclass GraphNode: a node of the pt-conflict-graph. -/
structure GraphNode where
  template : Template
  operation : Operation
  conn : Conn
  k : InOut
deriving DecidableEq, Repr

/-- Python GraphNode equality: structural, with the template compared by name. -/
def nodeEq (a b : GraphNode) : Bool :=
  tmplEq a.template b.template && (a.operation == b.operation)
    && (a.conn == b.conn) && (a.k == b.k)

/-- is_node_valid from algorithm.py: nodes labelled N are always valid;
otherwise conditions (1) and (2) reject the node when some operation of t1
sharing the relevant anchor variable conflicts with an operation of the
node's template on the node's variable. -/
def is_node_valid (node : GraphNode) (o1 p1 : Operation) (t1 : Template) : Bool :=
  if node.conn == Conn.N then
    true
  else
    !(t1.operations.any fun op1 =>
      ((op1.var == o1.var && node.conn == Conn.O)
        || (op1.var == p1.var && node.conn == Conn.P))
      && node.template.operations.any fun op =>
        (op.var == node.operation.var) && op1.is_conflicting op)

/-- is_edge_valid from algorithm.py: condition (3) for OUT→IN pairs,
conditions (4)-(6) for IN→OUT pairs within one template. -/
def is_edge_valid (node1 node2 : GraphNode) (h : Nat) : Bool :=
  if node1.k == InOut.OUT && node2.k == InOut.IN then
    (node1.conn == node2.conn) && node1.operation.is_conflicting node2.operation
  else if node1.k == InOut.IN && node2.k == InOut.OUT && tmplEq node1.template node2.template then
    -- Condition (4)
    ((node1.operation.var != node2.operation.var)
      && ((node1.conn == Conn.O && node2.conn == Conn.P)
        || (node1.conn == Conn.O && node2.conn == Conn.N)
        || (node1.conn == Conn.N && node2.conn == Conn.N)
        || (node1.conn == Conn.N && node2.conn == Conn.P)))
    -- Condition (5)
    || ((node1.operation.var == node2.operation.var) && (node1.conn == node2.conn))
    -- Condition (6)
    || ((node1.operation.var == node2.operation.var)
      && (node1.conn == Conn.O) && (node2.conn == Conn.P) && (h == 1))
  else
    false

/-- Iteration order of the Conn enum (declaration order, as Python iterates it). -/
def allConns : List Conn := [Conn.O, Conn.P, Conn.N]

/-- Iteration order of the InOut enum. -/
def allKs : List InOut := [InOut.IN, InOut.OUT]

/-- Node-candidate enumeration of pt_conflict_graph, filtered by validity,
in insertion order. -/
def graphNodes (o1 p1 : Operation) (t1 : Template) (ts : List Template) : List GraphNode :=
  (ts.flatMap fun t => t.operations.flatMap fun o =>
    allConns.flatMap fun c => allKs.map fun k => GraphNode.mk t o c k).filter
    (fun n => is_node_valid n o1 p1 t1)

/-- Deduplication of nodes under the Python node equality (networkx add_node
keeps the first insertion of each node value). -/
def dedupNodes : List GraphNode → List GraphNode
  | [] => []
  | a :: rest => a :: dedupNodes (rest.filter (fun b => !(nodeEq a b)))
termination_by l => l.length
decreasing_by
  simp only [List.length_cons]
  exact Nat.lt_succ_of_le (List.length_filter_le _ _)

/-- Undirected adjacency of the pt-conflict-graph: networkx add_edge is applied
to every ordered pair passing is_edge_valid, yielding a symmetric relation. -/
def adjacent (h : Nat) (a b : GraphNode) : Bool :=
  is_edge_valid a b h || is_edge_valid b a h

/-- One expansion step of reachability: add every node adjacent to the
current frontier that is not yet present. -/
def expandOnce (nodes : List GraphNode) (h : Nat) (cur : List GraphNode) : List GraphNode :=
  cur ++ nodes.filter (fun b =>
    !(cur.any (fun x => nodeEq x b)) && cur.any (fun a => adjacent h a b))

/-- All nodes reachable from a in the pt-conflict-graph, via fuel-bounded
expansion (the node count bounds every path length). -/
def reachFrom (nodes : List GraphNode) (h : Nat) (a : GraphNode) : List GraphNode :=
  (expandOnce nodes h)^[nodes.length] [a]

/-- Connectivity in the reflexive transitive closure of the pt-conflict-graph. -/
def connectedB (nodes : List GraphNode) (h : Nat) (a b : GraphNode) : Bool :=
  nodeEq a b || (reachFrom nodes h a).any (fun x => nodeEq x b)

/-- All ordered pairs (a, b) of list elements with a at an index not after b;
this is the orientation in which networkx reports each undirected edge once
(first-inserted endpoint first), self-pairs included. -/
def orderedPairs : List GraphNode → List (GraphNode × GraphNode)
  | [] => []
  | a :: rest => (a, a) :: (rest.map (fun b => (a, b)) ++ orderedPairs rest)

/-- Edge list of the reflexive transitive closure rtc of
pt_conflict_graph(o1, p1, t1, h, ts), as iterated by rtc.edges. -/
def rtcEdges (o1 p1 : Operation) (t1 : Template) (h : Nat) (ts : List Template) :
    List (GraphNode × GraphNode) :=
  let nodes := dedupNodes (graphNodes o1 p1 t1 ts)
  (orderedPairs nodes).filter (fun e => connectedB nodes h e.1 e.2)

/-- reachable from algorithm.py: close the sequence loop from t2 to tn.
Case 1 is a cycle of length 2, case 2 a direct conflict (length 3), case 3
consults the transitive closure (length > 3). -/
def reachable (t2 : Template) (o2 p2 : Operation) (co2 : Conn)
    (t_n : Template) (o_n p_n : Operation) (cp_n : Conn)
    (h : Nat) (rtc : List (GraphNode × GraphNode)) : Bool :=
  -- Case 1: n = 2 => t2 = tn
  (tmplEq t2 t_n && (o2 == o_n) && (p2 == p_n)
    && ((co2 == Conn.P && cp_n == Conn.O)
      || (h == 1 && co2 == Conn.O && cp_n == Conn.P)))
  -- Case 2: n = 3 => direct conflict between t2 and t3 = tn
  || (o2.is_conflicting p_n
    && ((co2 == cp_n)
      || (h == 1 && co2 == Conn.O && cp_n == Conn.P)))
  -- Case 3: n > 3 => use the transitive closure
  || rtc.any (fun e =>
      (e.1.k == InOut.IN) && (e.2.k == InOut.OUT)
      && e.1.operation.is_conflicting o2 && e.2.operation.is_conflicting p_n
      && (e.1.conn == co2) && (e.2.conn == cp_n))

/-- get_connectedness from algorithm.py: the set of connectedness options of
the target operation, closed under O↔P when h = 1. -/
def get_connectedness (target_op o : Operation) (co : Conn) (p : Operation) (cp : Conn)
    (h : Nat) : Finset Conn :=
  let result : Finset Conn := ∅
  let result := if target_op.var = o.var then insert co result else result
  let result := if target_op.var = p.var then insert cp result else result
  let result := if result = ∅ then {Conn.N} else result
  let result := if h = 1 ∧ Conn.O ∈ result then insert Conn.P result else result
  let result := if h = 1 ∧ Conn.P ∈ result then insert Conn.O result else result
  result

/-- The sanity assertion inside get_connectedness. -/
def connSanity (h : Nat) (s : Finset Conn) : Prop :=
  (h = 1 ∧ (s = {Conn.N} ∨ s = {Conn.O, Conn.P}))
  ∨ (h = 2 ∧ (s = {Conn.N} ∨ s = {Conn.O} ∨ s = {Conn.P}))

instance (h : Nat) (s : Finset Conn) : Decidable (connSanity h s) := by
  unfold connSanity; infer_instance

/-- The per-operation reject test of conditions (2) and (3) of is_valid_cycle:
op1 is connected to the anchors and has a ww-conflict with a connected
operation of t2 or tn. -/
def scanReject (op1 o1 p1 : Operation) (t2ops tnops : List Operation)
    (o2 p2 : Operation) (co2 : Conn) (o_n p_n : Operation) (cp_n : Conn)
    (h : Nat) : Bool :=
  let conns1 := get_connectedness op1 o1 Conn.O p1 Conn.P h
  decide (Conn.N ∉ conns1)
  && (t2ops.any (fun op2 => op1.is_ww_conflicting op2
      && decide (conns1 ∩ get_connectedness op2 o2 co2 p2 Conn.O h ≠ ∅))
    || tnops.any (fun opn => op1.is_ww_conflicting opn
      && decide (conns1 ∩ get_connectedness opn o_n Conn.P p_n cp_n h ≠ ∅)))

/-- The scan of conditions (2) and (3) of is_valid_cycle over t1's operations:
reject on a connected ww-conflict with t2 or tn; when stopRC is set
(allocation of t1 is READ_COMMITTED) stop after the first occurrence of o1. -/
def scanWW (o1 p1 : Operation) (t2ops tnops : List Operation)
    (o2 p2 : Operation) (co2 : Conn) (o_n p_n : Operation) (cp_n : Conn)
    (h : Nat) (stopRC : Bool) : List Operation → Bool
  | [] => true
  | op1 :: rest =>
    if scanReject op1 o1 p1 t2ops tnops o2 p2 co2 o_n p_n cp_n h then
      false
    else if (op1 == o1) && stopRC then
      true
    else
      scanWW o1 p1 t2ops tnops o2 p2 co2 o_n p_n cp_n h stopRC rest

/-- The scan of condition (5) of is_valid_cycle over t1's operations:
reject if p1 is encountered, stop once o1 is encountered. -/
def cond5scan (o1 p1 : Operation) : List Operation → Bool
  | [] => true
  | op :: rest =>
    if op == p1 then false
    else if op == o1 then true
    else cond5scan o1 p1 rest

/-- Condition (5) of is_valid_cycle: on missing return-anchor rw-conflict,
reject unless t1 runs under READ_COMMITTED and p1 does not precede o1. -/
def cond5ok (t1ops : List Operation) (o1 p1 o_n : Operation) (isRC : Bool) : Bool :=
  if o_n.is_rw_conflicting p1 then true
  else if !isRC then false
  else cond5scan o1 p1 t1ops

/-- The double scan of condition (7): a connected wr-conflict between t1 and t2. -/
def cond7scan (t1ops t2ops : List Operation) (o1 p1 o2 p2 : Operation) (co2 : Conn)
    (h : Nat) : Bool :=
  t1ops.any fun op1 =>
    let conns1 := get_connectedness op1 o1 Conn.O p1 Conn.P h
    t2ops.any fun op2 =>
      op1.is_wr_conflicting op2
      && decide (conns1 ∩ get_connectedness op2 o2 co2 p2 Conn.O h ≠ ∅)

/-- The double scan of condition (8): a connected rw-conflict between t1 and tn. -/
def cond8scan (t1ops tnops : List Operation) (o1 p1 o_n p_n : Operation) (cp_n : Conn)
    (h : Nat) : Bool :=
  t1ops.any fun op1 =>
    let conns1 := get_connectedness op1 o1 Conn.O p1 Conn.P h
    tnops.any fun opn =>
      op1.is_rw_conflicting opn
      && decide (conns1 ∩ get_connectedness opn o_n Conn.P p_n cp_n h ≠ ∅)

/-- is_valid_cycle from algorithm.py, as the conjunction of its sequential
reject checks (all checks are pure, so early return equals conjunction). -/
def is_valid_cycle (t1 : Template) (o1 p1 : Operation)
    (t2 : Template) (o2 p2 : Operation) (co2 : Conn)
    (t_n : Template) (o_n p_n : Operation) (cp_n : Conn)
    (h : Nat) (alloc : String → IsolationLevel) : Bool :=
  -- Conditions (2) and (3)
  scanWW o1 p1 t2.operations t_n.operations o2 p2 co2 o_n p_n cp_n h
      (alloc t1.name == IsolationLevel.READ_COMMITTED) t1.operations
  -- Condition (4)
  && o1.is_rw_conflicting p2
  -- Condition (5)
  && cond5ok t1.operations o1 p1 o_n (alloc t1.name == IsolationLevel.READ_COMMITTED)
  -- Condition (6)
  && !((alloc t1.name == IsolationLevel.SERIALIZABLE)
      && (alloc t2.name == IsolationLevel.SERIALIZABLE)
      && (alloc t_n.name == IsolationLevel.SERIALIZABLE))
  -- Condition (7)
  && (!((alloc t1.name == IsolationLevel.SERIALIZABLE)
        && (alloc t2.name == IsolationLevel.SERIALIZABLE))
      || !(cond7scan t1.operations t2.operations o1 p1 o2 p2 co2 h))
  -- Condition (8)
  && (!((alloc t1.name == IsolationLevel.SERIALIZABLE)
        && (alloc t_n.name == IsolationLevel.SERIALIZABLE))
      || !(cond8scan t1.operations t_n.operations o1 p1 o_n p_n cp_n h))

/-- One candidate outer cycle of the enumeration in is_robust. -/
structure Cand where
  t1 : Template
  o1 : Operation
  p1 : Operation
  h : Nat
  t2 : Template
  o2 : Operation
  p2 : Operation
  co2 : Conn
  t_n : Template
  o_n : Operation
  p_n : Operation
  cp_n : Conn
deriving DecidableEq, Repr

/-- Admissible h values: only 1 when the anchors share a variable. -/
def hOptions (o1 p1 : Operation) : List Nat :=
  if o1.var == p1.var then [1] else [1, 2]

/-- co2 label options from is_robust. -/
def co2Options (o2 p2 : Operation) : List Conn :=
  if o2.var == p2.var then [Conn.O] else [Conn.N, Conn.P]

/-- cpn label options from is_robust. -/
def cpnOptions (o_n p_n : Operation) : List Conn :=
  if o_n.var == p_n.var then [Conn.P] else [Conn.N, Conn.O]

/-- The candidate enumeration of is_robust, in the nesting order of the
source loops (set-typed collections iterated in input list order). -/
def candidates (ts : List Template) : List Cand :=
  ts.flatMap fun t1 =>
  t1.operations.flatMap fun o1 =>
  t1.operations.flatMap fun p1 =>
  (hOptions o1 p1).flatMap fun h =>
  ts.flatMap fun t2 =>
  (t2.operations.filter (fun p2 => o1.is_rw_conflicting p2)).flatMap fun p2 =>
  t2.operations.flatMap fun o2 =>
  ts.flatMap fun t_n =>
  (t_n.operations.filter (fun o_n => o_n.is_conflicting p1)).flatMap fun o_n =>
  t_n.operations.flatMap fun p_n =>
  (co2Options o2 p2).flatMap fun co2 =>
  (cpnOptions o_n p_n).map fun cp_n =>
  Cand.mk t1 o1 p1 h t2 o2 p2 co2 t_n o_n p_n cp_n

/-- A candidate is a witness when it is simultaneously valid and reachable. -/
def candOK (ts : List Template) (alloc : String → IsolationLevel) (c : Cand) : Bool :=
  is_valid_cycle c.t1 c.o1 c.p1 c.t2 c.o2 c.p2 c.co2 c.t_n c.o_n c.p_n c.cp_n c.h alloc
  && reachable c.t2 c.o2 c.p2 c.co2 c.t_n c.o_n c.p_n c.cp_n c.h
      (rtcEdges c.o1 c.p1 c.t1 c.h ts)

/-- is_robust from algorithm.py: the first valid and reachable candidate, if
any, is returned as the witness of non-robustness. -/
def is_robust (ts : List Template) (alloc : String → IsolationLevel) :
    Bool × Option Cand :=
  match (candidates ts).find? (fun c => candOK ts alloc c) with
  | some c => (false, some c)
  | none => (true, none)

/-- Pointwise update of an allocation at one template name. -/
def updateAlloc (alloc : String → IsolationLevel) (name : String)
    (l : IsolationLevel) : String → IsolationLevel :=
  fun n => if n = name then l else alloc n

/-- One iteration of the optimizer loop: try SI, revert to SSI if not robust;
otherwise try RC, revert to SI if not robust. -/
def optStep (ts : List Template) (alloc : String → IsolationLevel) (t : Template) :
    String → IsolationLevel :=
  let allocSI := updateAlloc alloc t.name IsolationLevel.SNAPSHOT_ISOLATION
  if !(is_robust ts allocSI).1 then
    updateAlloc alloc t.name IsolationLevel.SERIALIZABLE
  else
    let allocRC := updateAlloc alloc t.name IsolationLevel.READ_COMMITTED
    if !(is_robust ts allocRC).1 then allocSI
    else allocRC

/-- optimal_alloc from algorithm.py: start from all-SERIALIZABLE, greedily
demote each template. -/
def optimal_alloc (ts : List Template) : String → IsolationLevel :=
  ts.foldl (optStep ts) (fun _ => IsolationLevel.SERIALIZABLE)

/-! ### Basic infrastructure lemmas -/

/-- Characterization of the first hit of List.find?. -/
lemma find?_first_char {α : Type} (p : α → Bool) :
    ∀ (l : List α) (a : α),
      l.find? p = some a ↔
        ∃ l1 l2, l = l1 ++ a :: l2 ∧ p a = true ∧ ∀ x ∈ l1, p x = false := by
  intro l
  induction l with
  | nil => intro a; simp
  | cons b l ih =>
    intro a
    cases hb : p b with
    | true =>
      rw [List.find?_cons_of_pos _ hb]
      constructor
      · intro he
        injection he with he
        subst he
        exact ⟨[], l, rfl, hb, by simp⟩
      · rintro ⟨l1, l2, heq, hpa, hall⟩
        cases l1 with
        | nil =>
          simp only [List.nil_append, List.cons.injEq] at heq
          rw [heq.1]
        | cons c l1 =>
          simp only [List.cons_append, List.cons.injEq] at heq
          have hc := hall c (by simp)
          rw [← heq.1, hb] at hc
          cases hc
    | false =>
      rw [List.find?_cons_of_neg _ (by simp [hb])]
      rw [ih]
      constructor
      · rintro ⟨l1, l2, heq, hpa, hall⟩
        refine ⟨b :: l1, l2, by rw [heq, List.cons_append], hpa, ?_⟩
        intro x hx
        rcases List.mem_cons.mp hx with hxb | hxl
        · rw [hxb]; exact hb
        · exact hall x hxl
      · rintro ⟨l1, l2, heq, hpa, hall⟩
        cases l1 with
        | nil =>
          simp only [List.nil_append, List.cons.injEq] at heq
          rw [← heq.1] at hpa
          rw [hb] at hpa
          cases hpa
        | cons c l1 =>
          simp only [List.cons_append, List.cons.injEq] at heq
          exact ⟨l1, l2, heq.2, hpa, fun x hx => hall x (by simp [hx])⟩

/-- The boolean verdict of is_robust is true exactly when no candidate is
simultaneously valid and reachable. -/
lemma robust_true_iff (ts : List Template) (alloc : String → IsolationLevel) :
    (is_robust ts alloc).1 = true ↔ ∀ c ∈ candidates ts, candOK ts alloc c = false := by
  unfold is_robust
  cases hf : (candidates ts).find? (fun c => candOK ts alloc c) with
  | none =>
    rw [List.find?_eq_none] at hf
    simp only [true_iff]
    intro c hc
    have := hf c hc
    simpa using this
  | some c =>
    constructor
    · intro h; cases h
    · intro hall
      have h1 := List.find?_some hf
      have h2 := List.mem_of_find?_eq_some hf
      rw [hall c h2] at h1
      cases h1

/-- The three template components of a candidate belong to the template set. -/
lemma mem_candidates {ts : List Template} {c : Cand} (hc : c ∈ candidates ts) :
    c.t1 ∈ ts ∧ c.t2 ∈ ts ∧ c.t_n ∈ ts := by
  simp only [candidates, List.mem_flatMap, List.mem_map, List.mem_filter] at hc
  obtain ⟨t1, ht1, o1, ho1, p1, hp1, h, hh, t2, ht2, p2, hp2, o2, ho2,
    tn, htn, onn, honn, pn, hpn, co2, hco2, cpn, hcpn, rfl⟩ := hc
  exact ⟨ht1, ht2, htn⟩

/-! ### C10: empty template set -/

/-- C10: for a TemplateSet containing no templates, is_robust returns
(true, {}) for every allocation: the candidate enumeration is empty, so the
empty template set is robust and the returned witness is empty. -/
theorem C10_empty_templateset (alloc : String → IsolationLevel) :
    is_robust [] alloc = (true, none) := rfl

/-! ### C9: a single template with one read-only operation -/

/-- An operation with an empty writeset is never the target of an rw-conflict. -/
lemma rw_conflicting_empty_writeset (a : Operation) (v r : String) (rs : List String) :
    a.is_rw_conflicting ⟨v, r, rs, []⟩ = false := by
  simp [Operation.is_rw_conflicting]

/-- C9: a TemplateSet of exactly one template whose operation sequence is a
single operation with an empty writeset is robust under every allocation. -/
theorem C9_single_readonly_robust (nm v r : String) (rs : List String)
    (alloc : String → IsolationLevel) :
    is_robust [⟨nm, [⟨v, r, rs, []⟩]⟩] alloc = (true, none) := by
  have hcand : candidates [⟨nm, [⟨v, r, rs, []⟩]⟩] = [] := by
    simp [candidates, rw_conflicting_empty_writeset]
  unfold is_robust
  rw [hcand]
  rfl

/-! ### C6: characterization of reachable -/

set_option maxHeartbeats 2000000 in
/-- C6: reachable(t2, o2, p2, co2, tn, on, pn, cpn, h, rtc) returns true iff
the length-2 case holds (t2 == tn by Python template equality, o2 == on,
p2 == pn, with labels (P, O), or h = 1 with labels (O, P)), or the length-3
case holds (o2 conflicting with pn, and co2 == cpn or h = 1 with (O, P)),
or the closure rtc contains an edge (a, b) with a.k = IN, b.k = OUT,
a.conn = co2, b.conn = cpn, a.operation conflicting with o2 and b.operation
conflicting with pn. -/
theorem C6_reachable_characterization (t2 : Template) (o2 p2 : Operation) (co2 : Conn)
    (t_n : Template) (o_n p_n : Operation) (cp_n : Conn) (h : Nat)
    (rtc : List (GraphNode × GraphNode)) :
    reachable t2 o2 p2 co2 t_n o_n p_n cp_n h rtc = true ↔
      ((t2.name = t_n.name ∧ o2 = o_n ∧ p2 = p_n ∧
          ((co2 = Conn.P ∧ cp_n = Conn.O) ∨ (h = 1 ∧ co2 = Conn.O ∧ cp_n = Conn.P)))
        ∨ (o2.is_conflicting p_n = true ∧
            (co2 = cp_n ∨ (h = 1 ∧ co2 = Conn.O ∧ cp_n = Conn.P)))
        ∨ (∃ e ∈ rtc, e.1.k = InOut.IN ∧ e.2.k = InOut.OUT ∧
            e.1.conn = co2 ∧ e.2.conn = cp_n ∧
            e.1.operation.is_conflicting o2 = true ∧
            e.2.operation.is_conflicting p_n = true)) := by
  simp only [reachable, tmplEq, Bool.or_eq_true, Bool.and_eq_true, beq_iff_eq,
    List.any_eq_true]
  tauto

/-! ### C7: the sanity assertion of get_connectedness -/

/-- get_connectedness as a function of the two variable-equality tests only. -/
def gcPure (b1 b2 : Bool) (co cp : Conn) (h : Nat) : Finset Conn :=
  let result : Finset Conn := ∅
  let result := if b1 then insert co result else result
  let result := if b2 then insert cp result else result
  let result := if result = ∅ then {Conn.N} else result
  let result := if h = 1 ∧ Conn.O ∈ result then insert Conn.P result else result
  let result := if h = 1 ∧ Conn.P ∈ result then insert Conn.O result else result
  result

/-- get_connectedness factors through gcPure. -/
lemma gc_eq_gcPure (t o : Operation) (co : Conn) (p : Operation) (cp : Conn) (h : Nat) :
    get_connectedness t o co p cp h =
      gcPure (decide (t.var = o.var)) (decide (t.var = p.var)) co cp h := by
  unfold get_connectedness gcPure
  by_cases h1 : t.var = o.var <;> by_cases h2 : t.var = p.var <;> simp [h1, h2]

/-- Sanity of gcPure when the two tests cannot both hold. -/
lemma gcPure_sanity_excl (h : Nat) (hh : h = 1 ∨ h = 2) (b1 b2 : Bool) (co cp : Conn)
    (hex : ¬(b1 = true ∧ b2 = true)) : connSanity h (gcPure b1 b2 co cp h) := by
  rcases hh with rfl | rfl <;> cases b1 <;> cases b2 <;> cases co <;> cases cp <;>
    first
      | decide
      | exact absurd ⟨rfl, rfl⟩ hex

/-- Sanity of gcPure for anchor labels (O, P) under h = 1. -/
lemma gcPure_sanity_OP1 (b1 b2 : Bool) : connSanity 1 (gcPure b1 b2 Conn.O Conn.P 1) := by
  cases b1 <;> cases b2 <;> decide

/-- Sanity of gcPure when both labels are O. -/
lemma gcPure_sanity_OO (h : Nat) (hh : h = 1 ∨ h = 2) (b1 b2 : Bool) :
    connSanity h (gcPure b1 b2 Conn.O Conn.O h) := by
  rcases hh with rfl | rfl <;> cases b1 <;> cases b2 <;> decide

/-- Sanity of gcPure when both labels are P. -/
lemma gcPure_sanity_PP (h : Nat) (hh : h = 1 ∨ h = 2) (b1 b2 : Bool) :
    connSanity h (gcPure b1 b2 Conn.P Conn.P h) := by
  rcases hh with rfl | rfl <;> cases b1 <;> cases b2 <;> decide

/-- When the anchors of a call share no variable, the target cannot match both. -/
lemma excl_of_ne {t o p : Operation} (hv : ¬ o.var = p.var) :
    ¬(decide (t.var = o.var) = true ∧ decide (t.var = p.var) = true) := by
  rintro ⟨h1, h2⟩
  exact hv ((of_decide_eq_true h1).symm.trans (of_decide_eq_true h2))

/-- C7: on every call shape that is_valid_cycle issues during is_robust,
the sanity assertion inside get_connectedness holds: for the t1-scan call
(target, o1, O, p1, P, h) with h drawn from hOptions, for the t2-side call
(target, o2, co2, p2, O, h) with co2 drawn from co2Options, and for the
tn-side call (target, on, P, pn, cpn, h) with cpn drawn from cpnOptions;
when h = 1 the result is {N} or {O, P}, and when h = 2 it is exactly one of
{N}, {O}, {P}. -/
theorem C7_connectedness_sanity (h : Nat) :
    (∀ target o1 p1 : Operation, h ∈ hOptions o1 p1 →
      connSanity h (get_connectedness target o1 Conn.O p1 Conn.P h))
    ∧ (∀ target o2 p2 : Operation, (h = 1 ∨ h = 2) → ∀ co2 ∈ co2Options o2 p2,
      connSanity h (get_connectedness target o2 co2 p2 Conn.O h))
    ∧ (∀ target o_n p_n : Operation, (h = 1 ∨ h = 2) → ∀ cp_n ∈ cpnOptions o_n p_n,
      connSanity h (get_connectedness target o_n Conn.P p_n cp_n h)) := by
  refine ⟨?_, ?_, ?_⟩
  · intro target o1 p1 hh
    rw [gc_eq_gcPure]
    unfold hOptions at hh
    by_cases hv : o1.var = p1.var
    · rw [if_pos (by simp [hv])] at hh
      simp only [List.mem_singleton] at hh
      subst hh
      exact gcPure_sanity_OP1 _ _
    · rw [if_neg (by simp [hv])] at hh
      simp only [List.mem_cons, List.mem_singleton, List.not_mem_nil, or_false] at hh
      exact gcPure_sanity_excl h hh _ _ _ _ (excl_of_ne hv)
  · intro target o2 p2 hh co2 hco2
    rw [gc_eq_gcPure]
    unfold co2Options at hco2
    by_cases hv : o2.var = p2.var
    · rw [if_pos (by simp [hv])] at hco2
      simp only [List.mem_singleton] at hco2
      subst hco2
      exact gcPure_sanity_OO h hh _ _
    · exact gcPure_sanity_excl h hh _ _ _ _ (excl_of_ne hv)
  · intro target o_n p_n hh cp_n hcp
    rw [gc_eq_gcPure]
    unfold cpnOptions at hcp
    by_cases hv : o_n.var = p_n.var
    · rw [if_pos (by simp [hv])] at hcp
      simp only [List.mem_singleton] at hcp
      subst hcp
      exact gcPure_sanity_PP h hh _ _
    · exact gcPure_sanity_excl h hh _ _ _ _ (excl_of_ne hv)

/-! ### C1 and C2: all-SERIALIZABLE robustness and monotonicity -/

/-- READ_COMMITTED is the minimum of the level order. -/
lemma level_le_RC {a b : IsolationLevel} (hab : a.value ≤ b.value)
    (hb : b = IsolationLevel.READ_COMMITTED) : a = IsolationLevel.READ_COMMITTED := by
  subst hb
  cases a <;> first | rfl | simp [IsolationLevel.value] at hab

/-- SERIALIZABLE is the maximum of the level order. -/
lemma SSI_level_le {a b : IsolationLevel} (ha : a = IsolationLevel.SERIALIZABLE)
    (hab : a.value ≤ b.value) : b = IsolationLevel.SERIALIZABLE := by
  subst ha
  cases b <;> first | rfl | simp [IsolationLevel.value] at hab

/-- Every level is at most SERIALIZABLE. -/
lemma level_le_SSI (a : IsolationLevel) : a.value ≤ IsolationLevel.SERIALIZABLE.value := by
  cases a <;> simp [IsolationLevel.value]

/-- scanWW is monotone in the stop flag: whenever the B-side stop implies the
A-side stop, a passing B-scan gives a passing A-scan (stopping earlier can
only skip reject checks). -/
lemma scanWW_mono (o1 p1 : Operation) (t2ops tnops : List Operation)
    (o2 p2 : Operation) (co2 : Conn) (o_n p_n : Operation) (cp_n : Conn)
    (h : Nat) {sB sA : Bool} (hs : sB = true → sA = true) :
    ∀ ops : List Operation,
      scanWW o1 p1 t2ops tnops o2 p2 co2 o_n p_n cp_n h sB ops = true →
      scanWW o1 p1 t2ops tnops o2 p2 co2 o_n p_n cp_n h sA ops = true := by
  intro ops
  induction ops with
  | nil => simp [scanWW]
  | cons op rest ih =>
    intro hB
    by_cases hrej : scanReject op o1 p1 t2ops tnops o2 p2 co2 o_n p_n cp_n h = true
    · rw [scanWW, if_pos hrej] at hB
      cases hB
    · rw [scanWW, if_neg hrej] at hB
      rw [scanWW, if_neg hrej]
      by_cases ho : (op == o1) = true
      · by_cases hsB : sB = true
        · rw [if_pos (by simp [ho, hs hsB])]
        · rw [if_neg (by simp [hsB])] at hB
          by_cases hsA : sA = true
          · rw [if_pos (by simp [ho, hsA])]
          · rw [if_neg (by simp [hsA])]
            exact ih hB
      · rw [if_neg (by simp [ho])] at hB
        rw [if_neg (by simp [ho])]
        exact ih hB

/-- cond5ok is monotone in the RC flag in the same sense. -/
lemma cond5ok_mono (t1ops : List Operation) (o1 p1 o_n : Operation)
    {rB rA : Bool} (hr : rB = true → rA = true) :
    cond5ok t1ops o1 p1 o_n rB = true → cond5ok t1ops o1 p1 o_n rA = true := by
  unfold cond5ok
  by_cases hc : o_n.is_rw_conflicting p1 = true
  · rw [if_pos hc, if_pos hc]
    exact id
  · rw [if_neg hc, if_neg hc]
    by_cases hrB : rB = true
    · rw [if_neg (by simp [hrB]), if_neg (by simp [hr hrB])]
      exact id
    · rw [if_pos (by simp [hrB])]
      intro hB
      cases hB

/-- is_valid_cycle is antitone in the allocation: lowering isolation levels
(pointwise in the order RC < SI < SSI) preserves validity of a cycle. -/
lemma is_valid_cycle_antitone (t1 : Template) (o1 p1 : Operation)
    (t2 : Template) (o2 p2 : Operation) (co2 : Conn)
    (t_n : Template) (o_n p_n : Operation) (cp_n : Conn) (h : Nat)
    {A B : String → IsolationLevel}
    (h1 : (A t1.name).value ≤ (B t1.name).value)
    (h2 : (A t2.name).value ≤ (B t2.name).value)
    (h3 : (A t_n.name).value ≤ (B t_n.name).value) :
    is_valid_cycle t1 o1 p1 t2 o2 p2 co2 t_n o_n p_n cp_n h B = true →
    is_valid_cycle t1 o1 p1 t2 o2 p2 co2 t_n o_n p_n cp_n h A = true := by
  intro hB
  unfold is_valid_cycle at hB ⊢
  simp only [Bool.and_eq_true] at hB
  obtain ⟨⟨⟨⟨⟨hscan, hrw⟩, h5⟩, h6⟩, h7⟩, h8⟩ := hB
  have hstop : (B t1.name == IsolationLevel.READ_COMMITTED) = true →
      (A t1.name == IsolationLevel.READ_COMMITTED) = true := by
    intro hb
    have := level_le_RC h1 (by simpa using hb)
    simp [this]
  have hssi1 : (A t1.name == IsolationLevel.SERIALIZABLE) = true →
      (B t1.name == IsolationLevel.SERIALIZABLE) = true := by
    intro ha
    have := SSI_level_le (by simpa using ha) h1
    simp [this]
  have hssi2 : (A t2.name == IsolationLevel.SERIALIZABLE) = true →
      (B t2.name == IsolationLevel.SERIALIZABLE) = true := by
    intro ha
    have := SSI_level_le (by simpa using ha) h2
    simp [this]
  have hssi3 : (A t_n.name == IsolationLevel.SERIALIZABLE) = true →
      (B t_n.name == IsolationLevel.SERIALIZABLE) = true := by
    intro ha
    have := SSI_level_le (by simpa using ha) h3
    simp [this]
  simp only [Bool.and_eq_true]
  refine ⟨⟨⟨⟨⟨?_, hrw⟩, ?_⟩, ?_⟩, ?_⟩, ?_⟩
  · exact scanWW_mono o1 p1 t2.operations t_n.operations o2 p2 co2 o_n p_n cp_n h
      hstop t1.operations hscan
  · exact cond5ok_mono t1.operations o1 p1 o_n hstop h5
  · -- condition (6)
    rw [Bool.not_eq_true'] at h6 ⊢
    by_cases hA1 : (A t1.name == IsolationLevel.SERIALIZABLE) = true
    · by_cases hA2 : (A t2.name == IsolationLevel.SERIALIZABLE) = true
      · by_cases hA3 : (A t_n.name == IsolationLevel.SERIALIZABLE) = true
        · rw [hssi1 hA1, hssi2 hA2, hssi3 hA3] at h6
          cases h6
        · simp [hA3]
      · simp [hA2]
    · simp [hA1]
  · -- condition (7)
    by_cases hA12 : ((A t1.name == IsolationLevel.SERIALIZABLE)
        && (A t2.name == IsolationLevel.SERIALIZABLE)) = true
    · rw [Bool.and_eq_true] at hA12
      rw [hssi1 hA12.1, hssi2 hA12.2] at h7
      simp only [Bool.and_self, Bool.not_true, Bool.false_or] at h7
      simp [hA12.1, hA12.2, h7]
    · simp only [Bool.or_eq_true, Bool.not_eq_true']
      left
      simpa using hA12
  · -- condition (8)
    by_cases hA1n : ((A t1.name == IsolationLevel.SERIALIZABLE)
        && (A t_n.name == IsolationLevel.SERIALIZABLE)) = true
    · rw [Bool.and_eq_true] at hA1n
      rw [hssi1 hA1n.1, hssi3 hA1n.2] at h8
      simp only [Bool.and_self, Bool.not_true, Bool.false_or] at h8
      simp [hA1n.1, hA1n.2, h8]
    · simp only [Bool.or_eq_true, Bool.not_eq_true']
      left
      simpa using hA1n

/-- Robustness is monotone: raising isolation levels pointwise preserves a
positive robustness verdict. -/
lemma robust_mono (ts : List Template) {A B : String → IsolationLevel}
    (hle : ∀ t ∈ ts, (A t.name).value ≤ (B t.name).value)
    (hA : (is_robust ts A).1 = true) : (is_robust ts B).1 = true := by
  rw [robust_true_iff] at hA ⊢
  intro c hc
  obtain ⟨m1, m2, m3⟩ := mem_candidates hc
  have hcA := hA c hc
  by_contra hcon
  have hBtrue : candOK ts B c = true := by
    revert hcon
    cases candOK ts B c <;> simp
  unfold candOK at hBtrue hcA
  rw [Bool.and_eq_true] at hBtrue
  have hvA := is_valid_cycle_antitone c.t1 c.o1 c.p1 c.t2 c.o2 c.p2 c.co2
    c.t_n c.o_n c.p_n c.cp_n c.h (hle _ m1) (hle _ m2) (hle _ m3) hBtrue.1
  rw [hvA, hBtrue.2] at hcA
  cases hcA

/-- An allocation mapping every template of the set to SERIALIZABLE makes the
set robust: condition (6) invalidates every candidate cycle. -/
lemma allSSI_robust (ts : List Template) (alloc : String → IsolationLevel)
    (hA : ∀ t ∈ ts, alloc t.name = IsolationLevel.SERIALIZABLE) :
    (is_robust ts alloc).1 = true := by
  rw [robust_true_iff]
  intro c hc
  obtain ⟨m1, m2, m3⟩ := mem_candidates hc
  have e1 := hA _ m1
  have e2 := hA _ m2
  have e3 := hA _ m3
  simp [candOK, is_valid_cycle, e1, e2, e3]

/-- C1: for every TemplateSet, is_robust returns true when the allocation
maps every template to SERIALIZABLE (the all-SSI allocation is always
robust, because cycle-validity condition 6 rejects every candidate cycle
whose templates t1, t2, tn are all SERIALIZABLE). -/
theorem C1_all_serializable_robust (ts : List Template)
    (alloc : String → IsolationLevel)
    (hA : ∀ t ∈ ts, alloc t.name = IsolationLevel.SERIALIZABLE) :
    (is_robust ts alloc).1 = true :=
  allSSI_robust ts alloc hA

/-- C2: robustness is monotone in the isolation levels under RC < SI < SSI:
if A is pointwise at most B on the templates of the set and the set is
robust under A, it is robust under B; so lowering a level never turns a
non-robust allocation robust and raising one never breaks robustness. -/
theorem C2_robustness_monotone (ts : List Template)
    (A B : String → IsolationLevel)
    (hle : ∀ t ∈ ts, (A t.name).value ≤ (B t.name).value)
    (hA : (is_robust ts A).1 = true) : (is_robust ts B).1 = true :=
  robust_mono ts hle hA

/-! ### C3: the optimizer returns a robust allocation -/

/-- One optimizer step preserves robustness: a kept demotion was checked by
is_robust, and a revert to SERIALIZABLE only raises a level. -/
lemma optStep_robust (ts : List Template) (alloc : String → IsolationLevel)
    (t : Template) (h : (is_robust ts alloc).1 = true) :
    (is_robust ts (optStep ts alloc t)).1 = true := by
  unfold optStep
  by_cases hSI :
      (is_robust ts (updateAlloc alloc t.name IsolationLevel.SNAPSHOT_ISOLATION)).1 = true
  · rw [if_neg (by simp [hSI])]
    by_cases hRC :
        (is_robust ts (updateAlloc alloc t.name IsolationLevel.READ_COMMITTED)).1 = true
    · rw [if_neg (by simp [hRC])]
      exact hRC
    · rw [if_pos (by simp [Bool.not_eq_true] at hRC; simp [hRC])]
      exact hSI
  · rw [if_pos (by simp [Bool.not_eq_true] at hSI; simp [hSI])]
    refine robust_mono ts ?_ h
    intro t' _
    unfold updateAlloc
    by_cases he : t'.name = t.name
    · rw [if_pos he]
      exact level_le_SSI _
    · rw [if_neg he]

/-- The optimizer fold preserves robustness of the running allocation. -/
lemma opt_fold_robust (ts : List Template) :
    ∀ (l : List Template) (alloc : String → IsolationLevel),
      (is_robust ts alloc).1 = true →
      (is_robust ts (l.foldl (optStep ts) alloc)).1 = true := by
  intro l
  induction l with
  | nil => intro alloc h; simpa using h
  | cons t rest ih =>
    intro alloc h
    rw [List.foldl_cons]
    exact ih _ (optStep_robust ts alloc t h)

/-- C3: the allocation returned by optimal_alloc is robust: the optimizer
starts from the always-robust all-SERIALIZABLE allocation and commits a
demotion only after an is_robust check, reverting otherwise. -/
theorem C3_optimal_alloc_robust (ts : List Template) :
    (is_robust ts (optimal_alloc ts)).1 = true := by
  unfold optimal_alloc
  exact opt_fold_robust ts ts _ (allSSI_robust ts _ (fun t _ => rfl))

/-! ### Concrete fixtures for witnesses and counterexamples -/

/-- A read-only operation on attribute c of relation R. -/
def opRead : Operation := ⟨"x", "R", ["c"], []⟩

/-- A write-only operation on attribute c of relation R. -/
def opWrite : Operation := ⟨"y", "R", [], ["c"]⟩

/-- A one-template set with a single read-only operation. -/
def tmplRead : Template := ⟨"TA", [opRead]⟩

/-- A template holding the single write operation. -/
def tmplWrite : Template := ⟨"TB", [opWrite]⟩

/-- The constant all-SERIALIZABLE allocation. -/
def allocSSI : String → IsolationLevel := fun _ => IsolationLevel.SERIALIZABLE

/-- The constant all-READ_COMMITTED allocation. -/
def allocRC : String → IsolationLevel := fun _ => IsolationLevel.READ_COMMITTED

/-- Witness for C1: the concrete one-template set under the all-SSI
allocation satisfies the hypothesis and is robust. -/
theorem C1_witness :
    (∀ t ∈ [tmplRead], allocSSI t.name = IsolationLevel.SERIALIZABLE)
    ∧ (is_robust [tmplRead] allocSSI).1 = true :=
  ⟨fun _ _ => rfl,
    C1_all_serializable_robust [tmplRead] allocSSI (fun _ _ => rfl)⟩

/-- Witness for C2: raising the allocation of the concrete one-template set
from all-RC to all-SSI preserves its robustness. -/
theorem C2_witness :
    (∀ t ∈ [tmplRead], (allocRC t.name).value ≤ (allocSSI t.name).value)
    ∧ (is_robust [tmplRead] allocRC).1 = true
    ∧ (is_robust [tmplRead] allocSSI).1 = true := by
  refine ⟨fun _ _ => by simp [allocRC, allocSSI, IsolationLevel.value], rfl, ?_⟩
  exact C2_robustness_monotone [tmplRead] allocRC allocSSI
    (fun _ _ => by simp [allocRC, allocSSI, IsolationLevel.value]) rfl

/-- Witness for C7: the first call shape at a concrete operation and h = 1
satisfies the sanity assertion. -/
theorem C7_witness :
    connSanity 1 (get_connectedness opRead opRead Conn.O opRead Conn.P 1) :=
  (C7_connectedness_sanity 1).1 opRead opRead opRead (by decide)

/-! ### C5: determinism and the first-witness property -/

/-- C5: is_robust is a deterministic function of its inputs, and when it
answers (false, w) the witness w is exactly the first candidate, in the
sequential enumeration order of the source loops, that is simultaneously
valid and reachable: every earlier candidate in that order fails the test. -/
theorem C5_first_witness (ts : List Template) (alloc : String → IsolationLevel)
    (c : Cand) :
    is_robust ts alloc = (false, some c) ↔
      candOK ts alloc c = true ∧
        ∃ l1 l2, candidates ts = l1 ++ c :: l2 ∧
          ∀ x ∈ l1, candOK ts alloc x = false := by
  unfold is_robust
  cases hf : (candidates ts).find? (fun x => candOK ts alloc x) with
  | none =>
    constructor
    · intro hcontra
      cases hcontra
    · rintro ⟨hok, l1, l2, heq, hall⟩
      rw [List.find?_eq_none] at hf
      have hmem : c ∈ candidates ts := by
        rw [heq]
        simp
      have := hf c hmem
      rw [hok] at this
      cases this rfl
  | some d =>
    constructor
    · intro hpair
      have hd : d = c := by
        have := congrArg Prod.snd hpair
        simpa using this
      subst hd
      rw [find?_first_char] at hf
      obtain ⟨l1, l2, heq, hok, hall⟩ := hf
      exact ⟨hok, l1, l2, heq, hall⟩
    · rintro ⟨hok, l1, l2, heq, hall⟩
      have : (candidates ts).find? (fun x => candOK ts alloc x) = some c :=
        (find?_first_char _ _ _).mpr ⟨l1, l2, heq, hok, hall⟩
      rw [hf] at this
      injection this with hdc
      rw [hdc]

/-! ### C4: the return-anchor scan when p1 equals o1 -/

/-- When p1 = o1 occurs in the scanned list, the condition-5 scan rejects at
its first occurrence: the p1 test precedes the o1 break. -/
lemma cond5scan_self (o1 p1 : Operation) (heq : p1 = o1) :
    ∀ ops : List Operation, p1 ∈ ops → cond5scan o1 p1 ops = false := by
  intro ops
  induction ops with
  | nil => intro hm; cases hm
  | cons a rest ih =>
    intro hm
    by_cases ha : (a == p1) = true
    · rw [cond5scan, if_pos ha]
    · rw [cond5scan, if_neg ha]
      have hne : ¬ (a == o1) = true := by rw [← heq]; exact ha
      rw [if_neg hne]
      apply ih
      rcases List.mem_cons.mp hm with h1 | h2
      · exact absurd (by simp [h1]) ha
      · exact h2

/-- C4 amended: in cycle-validity condition 4 (return-anchor rw with RC
exception), when allocation[t1] is READ_COMMITTED, on is not rw-conflicting
with p1, and p1 = o1 occurs in t1's operations, the scan of t1's operations
rejects (the p1 check precedes the o1 break), so is_valid_cycle returns
false. -/
theorem C4_return_anchor_scan_rejects (t1 : Template) (o1 p1 : Operation)
    (t2 : Template) (o2 p2 : Operation) (co2 : Conn)
    (t_n : Template) (o_n p_n : Operation) (cp_n : Conn) (h : Nat)
    (alloc : String → IsolationLevel)
    (hRC : alloc t1.name = IsolationLevel.READ_COMMITTED)
    (hnrw : o_n.is_rw_conflicting p1 = false)
    (heq : p1 = o1) (hmem : p1 ∈ t1.operations) :
    is_valid_cycle t1 o1 p1 t2 o2 p2 co2 t_n o_n p_n cp_n h alloc = false := by
  have h5 : cond5ok t1.operations o1 p1 o_n
      (alloc t1.name == IsolationLevel.READ_COMMITTED) = false := by
    unfold cond5ok
    rw [if_neg (by simp [hnrw])]
    rw [hRC]
    rw [if_neg (by simp)]
    exact cond5scan_self o1 p1 heq t1.operations hmem
  simp [is_valid_cycle, h5]

/-- Counterexample for C4 as stated: a concrete input with allocation[t1] =
READ_COMMITTED, on not rw-conflicting with p1, and p1 equal to o1, on which
the earlier validity conditions pass but the condition-4 scan rejects and
is_valid_cycle returns false at this condition. -/
theorem C4_counterexample :
    allocRC tmplRead.name = IsolationLevel.READ_COMMITTED
    ∧ opWrite.is_rw_conflicting opRead = false
    ∧ scanWW opRead opRead tmplWrite.operations tmplWrite.operations
        opWrite opWrite Conn.O opWrite opWrite Conn.P 1 true
        tmplRead.operations = true
    ∧ opRead.is_rw_conflicting opWrite = true
    ∧ cond5ok tmplRead.operations opRead opRead opWrite true = false
    ∧ is_valid_cycle tmplRead opRead opRead tmplWrite opWrite opWrite Conn.O
        tmplWrite opWrite opWrite Conn.P 1 allocRC = false :=
  ⟨rfl, rfl, rfl, rfl, rfl, rfl⟩

/-- Witness for the amended C4 theorem at the concrete fixture. -/
theorem C4_amended_witness :
    allocRC tmplRead.name = IsolationLevel.READ_COMMITTED
    ∧ opWrite.is_rw_conflicting opRead = false
    ∧ opRead ∈ tmplRead.operations
    ∧ is_valid_cycle tmplRead opRead opRead tmplWrite opWrite opWrite Conn.O
        tmplWrite opWrite opWrite Conn.P 1 allocRC = false :=
  ⟨rfl, rfl, by decide,
    C4_return_anchor_scan_rejects tmplRead opRead opRead tmplWrite opWrite
      opWrite Conn.O tmplWrite opWrite opWrite Conn.P 1 allocRC rfl rfl rfl
      (by decide)⟩

/-! ### C8: ill-domained allocations

The Python Allocation carries a dict from templates (hashed by name) to
levels; a lookup of a template outside the dict raises KeyError.  To settle
the claim we thread that failure through the decision: the mapping becomes
an association list, a missing key becomes none, and every construct that
performs a lookup is lifted to Option. -/

/-- Python dict lookup by template name; none models the KeyError. -/
def lookupA (m : List (String × IsolationLevel)) (name : String) :
    Option IsolationLevel :=
  match m with
  | [] => none
  | (k, v) :: rest => if k = name then some v else lookupA rest name

/-- The conditions (2)/(3) scan with erroring mapping lookup: the source
reads mapping[t1] when op1 equals o1 (short-circuit of the Python and). -/
def scanWWE (o1 p1 : Operation) (t2ops tnops : List Operation)
    (o2 p2 : Operation) (co2 : Conn) (o_n p_n : Operation) (cp_n : Conn)
    (h : Nat) (t1name : String) (m : List (String × IsolationLevel)) :
    List Operation → Option Bool
  | [] => some true
  | op1 :: rest =>
    if scanReject op1 o1 p1 t2ops tnops o2 p2 co2 o_n p_n cp_n h then
      some false
    else if op1 == o1 then
      match lookupA m t1name with
      | none => none
      | some l =>
        if l == IsolationLevel.READ_COMMITTED then some true
        else scanWWE o1 p1 t2ops tnops o2 p2 co2 o_n p_n cp_n h t1name m rest
    else
      scanWWE o1 p1 t2ops tnops o2 p2 co2 o_n p_n cp_n h t1name m rest

/-- Condition (5) with erroring mapping lookup. -/
def cond5E (t1 : Template) (o1 p1 o_n : Operation)
    (m : List (String × IsolationLevel)) : Option Bool :=
  if o_n.is_rw_conflicting p1 then some true
  else
    match lookupA m t1.name with
    | none => none
    | some l =>
      if l != IsolationLevel.READ_COMMITTED then some false
      else some (cond5scan o1 p1 t1.operations)

/-- Condition (6) with erroring, short-circuiting mapping lookups
(some true = reject). -/
def cond6E (t1 t2 t_n : Template) (m : List (String × IsolationLevel)) :
    Option Bool :=
  match lookupA m t1.name with
  | none => none
  | some l1 =>
    if l1 != IsolationLevel.SERIALIZABLE then some false
    else
      match lookupA m t2.name with
      | none => none
      | some l2 =>
        if l2 != IsolationLevel.SERIALIZABLE then some false
        else
          match lookupA m t_n.name with
          | none => none
          | some ln => some (ln == IsolationLevel.SERIALIZABLE)

/-- Condition (7) with erroring, short-circuiting mapping lookups
(some true = pass). -/
def cond7E (t1 t2 : Template) (o1 p1 o2 p2 : Operation) (co2 : Conn) (h : Nat)
    (m : List (String × IsolationLevel)) : Option Bool :=
  match lookupA m t1.name with
  | none => none
  | some l1 =>
    if l1 != IsolationLevel.SERIALIZABLE then some true
    else
      match lookupA m t2.name with
      | none => none
      | some l2 =>
        if l2 != IsolationLevel.SERIALIZABLE then some true
        else some (!(cond7scan t1.operations t2.operations o1 p1 o2 p2 co2 h))

/-- Condition (8) with erroring, short-circuiting mapping lookups
(some true = pass). -/
def cond8E (t1 t_n : Template) (o1 p1 o_n p_n : Operation) (cp_n : Conn) (h : Nat)
    (m : List (String × IsolationLevel)) : Option Bool :=
  match lookupA m t1.name with
  | none => none
  | some l1 =>
    if l1 != IsolationLevel.SERIALIZABLE then some true
    else
      match lookupA m t_n.name with
      | none => none
      | some ln =>
        if ln != IsolationLevel.SERIALIZABLE then some true
        else some (!(cond8scan t1.operations t_n.operations o1 p1 o_n p_n cp_n h))

/-- is_valid_cycle over a partial mapping: none models the KeyError raised
by a lookup of a template missing from the allocation dict. -/
def is_valid_cycleE (t1 : Template) (o1 p1 : Operation)
    (t2 : Template) (o2 p2 : Operation) (co2 : Conn)
    (t_n : Template) (o_n p_n : Operation) (cp_n : Conn)
    (h : Nat) (m : List (String × IsolationLevel)) : Option Bool := do
  let s ← scanWWE o1 p1 t2.operations t_n.operations o2 p2 co2 o_n p_n cp_n h
    t1.name m t1.operations
  if !s then return false
  if !(o1.is_rw_conflicting p2) then return false
  let c5 ← cond5E t1 o1 p1 o_n m
  if !c5 then return false
  let c6 ← cond6E t1 t2 t_n m
  if c6 then return false
  let c7 ← cond7E t1 t2 o1 p1 o2 p2 co2 h m
  if !c7 then return false
  let c8 ← cond8E t1 t_n o1 p1 o_n p_n cp_n h m
  if !c8 then return false
  return true

/-- The per-candidate test of is_robust over a partial mapping; reachability
is consulted only after a positive validity verdict, as in the source. -/
def candOKE (ts : List Template) (m : List (String × IsolationLevel)) (c : Cand) :
    Option Bool := do
  let v ← is_valid_cycleE c.t1 c.o1 c.p1 c.t2 c.o2 c.p2 c.co2
    c.t_n c.o_n c.p_n c.cp_n c.h m
  if v then
    return reachable c.t2 c.o2 c.p2 c.co2 c.t_n c.o_n c.p_n c.cp_n c.h
      (rtcEdges c.o1 c.p1 c.t1 c.h ts)
  else
    return false

/-- First-hit search threading the possible lookup error. -/
def findE (p : Cand → Option Bool) : List Cand → Option (Option Cand)
  | [] => some none
  | c :: rest =>
    match p c with
    | none => none
    | some true => some (some c)
    | some false => findE p rest

/-- is_robust over a partial mapping: none models the decision terminating
with an unrecoverable error. -/
def is_robustE (ts : List Template) (m : List (String × IsolationLevel)) :
    Option (Bool × Option Cand) :=
  match findE (candOKE ts m) (candidates ts) with
  | none => none
  | some (some c) => some (false, some c)
  | some none => some (true, none)

/-- Counterexample for C8 as stated: for the one-template set with a single
read-only operation and the empty mapping (whose domain does not contain
the template), is_robust returns the normal result (true, {}): no candidate
cycle passes the conflict filters, so the mapping is never consulted. -/
theorem C8_counterexample :
    lookupA ([] : List (String × IsolationLevel)) tmplRead.name = none
    ∧ is_robustE [tmplRead] [] = some (true, none) :=
  ⟨rfl, rfl⟩

/-- C8 amended: an ill-domained allocation terminates the decision with an
unrecoverable error only when the enumeration actually consults the mapping
of a missing template: the one-template read-only set returns the normal
result (true, {}) under every mapping, while a two-template set with an
rw-conflict errors on the empty mapping at its first candidate. -/
theorem C8_error_only_when_consulted :
    (∀ m : List (String × IsolationLevel),
      is_robustE [tmplRead] m = some (true, none))
    ∧ is_robustE [tmplRead, tmplWrite] [] = none :=
  ⟨fun _ => rfl, rfl⟩
